import Mathlib

/-!
Verification development for the outbound invocation + result-logging
pipeline (`testApi`) and the error classifier (`handleApiError`).

The pipeline is modelled as a pure function from the request parameters and
an abstract "world" (the outcome of the single HTTP fetch) to the list of
observable side effects (store deletes/inserts, the network call, the
error-logging call) paired with the returned or raised value.

Notes on the embedding:
* JavaScript truthiness on string-valued JSON fields is modelled by
  `truthy`: a field is truthy when present and non-empty.
* `ApiError` is declared in the source as a TypeScript interface yet used
  with `new`; it is modelled as an Error-like value carrying a message and
  an optional status, where every construction site supplies only the
  message (so the status is always `none`).
* The decoded JSON body is modelled by the four string-valued fields the
  code ever probes (`result`, `responseText`, `response`, `message`);
  other content is irrelevant to the pipeline's behaviour.
-/

namespace Spec2Proof

/-- JS truthiness of an optional string field: present and non-empty. -/
def truthy : Option String → Bool
  | some s => !s.isEmpty
  | none => false

/-- JS `a || b` on optional string values: keep `a` when truthy, else `b`. -/
def jsOr (a b : Option String) : Option String :=
  if truthy a then a else b

/-- The decoded JSON response body, restricted to the fields the code probes. -/
structure JsonBody where
  result : Option String := none
  responseText : Option String := none
  response : Option String := none
  message : Option String := none
deriving DecidableEq, Repr

/-- `const responseText = data.result || data.responseText || data.response || data.message`. -/
def probeChain (d : JsonBody) : Option String :=
  jsOr (jsOr (jsOr d.result d.responseText) d.response) d.message

/-- `response: responseText || data.result || 'No response received'` on the success path. -/
def derivedResponse (d : JsonBody) : String :=
  (jsOr (jsOr (probeChain d) d.result) (some "No response received")).getD ""

/-- `apiAuthToken.startsWith('Bearer ')`, via character lists. -/
def strStartsWith (s p : String) : Bool :=
  p.toList.isPrefixOf s.toList

/-- The Authorization header value built by the pipeline. -/
def authHeader (tok : String) : String :=
  if strStartsWith tok "Bearer " then tok else "Bearer " ++ tok

/-- The `apiConfig` argument: method, url, content type. -/
structure ApiConfig where
  method : String
  url : String
  content_type : String
deriving DecidableEq, Repr

/-- The `TestApiParams` argument object of `testApi`. -/
structure TestApiParams where
  workerId : String
  apiAuthToken : String
  apiConfig : ApiConfig
  vars : List (String × String)
  workflowId : Option String
deriving DecidableEq, Repr

/-- A thrown JavaScript value: an `ApiError` (message plus never-populated
optional status), an ordinary `Error` (message plus optional stack), or a
non-`Error` value. -/
inductive Thrown where
  | apiErr (message : String) (status : Option Nat)
  | stdErr (message : String) (stack : Option String)
  | nonErr
deriving DecidableEq, Repr

/-- `error instanceof Error ? error.message : <none>`. -/
def Thrown.errMessage : Thrown → Option String
  | .apiErr m _ => some m
  | .stdErr m _ => some m
  | .nonErr => none

/-- `error instanceof Error ? error.stack : undefined`. -/
def Thrown.errStack : Thrown → Option String
  | .stdErr _ st => st
  | _ => none

/-- The `details` payload of an inserted `workflow_logs` row: either the
step-5 shape `{status, response}` or the catch-block shape `{error, stack}`. -/
inductive AuditDetails where
  | statusResponse (status : Nat) (response : JsonBody)
  | errorStack (error : String) (stack : Option String)
deriving DecidableEq, Repr

/-- A row inserted into `workflow_logs`. -/
structure AuditRow where
  workflow_id : String
  level : String
  message : String
  details : AuditDetails
deriving DecidableEq, Repr

/-- The outbound HTTP request the pipeline constructs. -/
structure HttpRequest where
  url : String
  method : String
  contentType : String
  authorization : String
  bodyWorkerId : String
  bodyVariables : List (String × String)
deriving DecidableEq, Repr

/-- The context object passed to `logError`. -/
structure LogContext where
  workerId : String
  url : String
  method : String
deriving DecidableEq, Repr

/-- Observable side effects of one `testApi` invocation, in order. -/
inductive Event where
  | storeDelete (workflowId : String) (message : String)
  | storeInsert (row : AuditRow)
  | netFetch (req : HttpRequest)
  | logErrorCall (context : LogContext) (error : Thrown)
deriving DecidableEq, Repr

/-- The world's reaction to the single fetch: the fetch promise rejects, or
a response arrives with a status, a status text, and a body whose JSON
parse either fails (throwing) or yields a `JsonBody`. -/
inductive FetchResult where
  | netErr (e : Thrown)
  | gotResponse (status : Nat) (statusText : String) (parsed : Except Thrown JsonBody)
deriving Repr

/-- The value returned by `testApi` on the happy path:
`{ success: true, data: { response } }`. -/
structure TestApiSuccess where
  success : Bool
  response : String
deriving DecidableEq, Repr

/-- `response.ok`: status in the 2xx range. -/
def respOk (status : Nat) : Bool :=
  decide (200 ≤ status ∧ status < 300)

/-- The request object passed to `fetch`. -/
def mkRequest (p : TestApiParams) : HttpRequest :=
  { url := p.apiConfig.url
    method := p.apiConfig.method
    contentType := p.apiConfig.content_type
    authorization := authHeader p.apiAuthToken
    bodyWorkerId := p.workerId
    bodyVariables := p.vars }

/-- Step 1: if `workflowId` is set, delete prior success markers. -/
def preClearEvents (p : TestApiParams) : List Event :=
  match p.workflowId with
  | some wid => [Event.storeDelete wid "API request successful"]
  | none => []

/-- Step 5: conditional audit insert
`if (workflowId && (!response.ok || variables.workflow === undefined))`. -/
def step5Events (p : TestApiParams) (status : Nat) (stext : String)
    (data : JsonBody) : List Event :=
  match p.workflowId with
  | some wid =>
    if !respOk status || (p.vars.lookup "workflow").isNone then
      [Event.storeInsert
        { workflow_id := wid
          level := if respOk status then "info" else "error"
          message := if respOk status then "API request successful"
                     else "API request failed: " ++ stext
          details := .statusResponse status data }]
    else []
  | none => []

/-- The catch block: unconditional `logError`, then a conditional audit
insert when `workflowId && variables.workflow !== undefined`. -/
def catchEvents (p : TestApiParams) (e : Thrown) : List Event :=
  Event.logErrorCall ⟨p.workerId, p.apiConfig.url, p.apiConfig.method⟩ e ::
  (match p.workflowId with
   | some wid =>
     if (p.vars.lookup "workflow").isSome then
       [Event.storeInsert
         { workflow_id := wid
           level := "error"
           message := (e.errMessage).getD "Failed to connect to MindStudio API"
           details := .errorStack ((e.errMessage).getD "Unknown error") e.errStack }]
     else []
   | none => [])

/-- The full `testApi` pipeline: precondition checks, pre-clear, fetch,
decode, step-5 audit, non-2xx raise, success return; every failure flows
through the catch block and is re-thrown. -/
def testApi (p : TestApiParams) (world : FetchResult) :
    List Event × Except Thrown TestApiSuccess :=
  if p.workerId = "" ∨ p.workerId = "your-worker-id" then
    ([], .error (.apiErr "Worker ID is not configured" none))
  else if p.apiAuthToken = "" ∨ p.apiAuthToken = "your-auth-token" then
    ([], .error (.apiErr "API authentication token is not configured" none))
  else
    let evs0 := preClearEvents p ++ [Event.netFetch (mkRequest p)]
    match world with
    | .netErr e => (evs0 ++ catchEvents p e, .error e)
    | .gotResponse status stext parsed =>
      match parsed with
      | .error e => (evs0 ++ catchEvents p e, .error e)
      | .ok data =>
        let evs1 := evs0 ++ step5Events p status stext data
        if respOk status then
          (evs1, .ok { success := true, response := derivedResponse data })
        else
          let e : Thrown :=
            .apiErr ((jsOr data.message
              (some ("API request failed: " ++ stext))).getD "") none
          (evs1 ++ catchEvents p e, .error e)

/-- Interpretation of the store effects over a list of audit rows:
`delete` filters matching rows, `insert` appends. -/
def applyEvent (rows : List AuditRow) : Event → List AuditRow
  | .storeDelete wid msg =>
      rows.filter (fun r => !decide (r.workflow_id = wid ∧ r.message = msg))
  | .storeInsert r => rows ++ [r]
  | _ => rows

/-- Fold a whole event list over the store. -/
def applyEvents (rows : List AuditRow) (evs : List Event) : List AuditRow :=
  evs.foldl applyEvent rows

/-- Is the event a Record Store access (delete or insert)? -/
def isStoreOp : Event → Bool
  | .storeDelete _ _ => true
  | .storeInsert _ => true
  | _ => false

/-- The audit rows inserted by step 5 (recognisable by their
`{status, response}` details shape). -/
def step5Rows (evs : List Event) : List AuditRow :=
  evs.filterMap (fun ev =>
    match ev with
    | .storeInsert r =>
      match r.details with
      | .statusResponse _ _ => some r
      | _ => none
    | _ => none)

/-- The audit rows inserted by the catch block (recognisable by their
`{error, stack}` details shape). -/
def catchInserts (evs : List Event) : List AuditRow :=
  evs.filterMap (fun ev =>
    match ev with
    | .storeInsert r =>
      match r.details with
      | .errorStack _ _ => some r
      | _ => none
    | _ => none)

/-- All inserted rows whose level is `"error"`. -/
def errorInserts (evs : List Event) : List AuditRow :=
  evs.filterMap (fun ev =>
    match ev with
    | .storeInsert r => if r.level = "error" then some r else none
    | _ => none)

/-- The `logError` calls recorded in the event list. -/
def logCalls (evs : List Event) : List (LogContext × Thrown) :=
  evs.filterMap (fun ev =>
    match ev with
    | .logErrorCall ctx e => some (ctx, e)
    | _ => none)

/-- Number of rows for the given workflow carrying the fixed success message. -/
def successCount (wid : String) (rows : List AuditRow) : Nat :=
  (rows.filter (fun r =>
    decide (r.workflow_id = wid ∧ r.message = "API request successful"))).length

/-- The precondition on credentials: non-empty and not the placeholders. -/
def validCreds (p : TestApiParams) : Prop :=
  p.workerId ≠ "" ∧ p.workerId ≠ "your-worker-id" ∧
  p.apiAuthToken ≠ "" ∧ p.apiAuthToken ≠ "your-auth-token"

instance (p : TestApiParams) : Decidable (validCreds p) := by
  unfold validCreds; infer_instance

/-- Does `pat` occur as a contiguous run inside the character list? -/
def listInfix (pat : List Char) : List Char → Bool
  | [] => pat.isEmpty
  | c :: rest => pat.isPrefixOf (c :: rest) || listInfix pat rest

/-- `s.includes(pat)` on strings. -/
def strContains (s pat : String) : Bool :=
  listInfix pat.toList s.toList

/-- Observable actions of `handleApiError`: the toast display and the
newly thrown error. -/
inductive ClassifierEvent where
  | display (msg : String)
  | raiseErr (msg : String)
deriving DecidableEq, Repr

/-- `handleApiError(error)`: the input is `some m` when the argument is an
`Error` instance with message `m`, `none` otherwise. Each branch displays a
toast and throws a fresh error; the function never returns normally, so its
meaning is the ordered list of these two actions. -/
def handleApiError (e : Option String) : List ClassifierEvent :=
  match e with
  | some m =>
    if strContains m "401" then
      [.display "Authentication failed. Please check your API credentials.",
       .raiseErr "Authentication failed"]
    else if strContains m "403" then
      [.display "You do not have permission to perform this action.",
       .raiseErr "Permission denied"]
    else if strContains m "404" then
      [.display "The requested resource was not found.",
       .raiseErr "Resource not found"]
    else if strContains m "429" then
      [.display "Too many requests. Please try again later.",
       .raiseErr "Rate limit exceeded"]
    else if strContains m "500" then
      [.display "Server error. Please try again later.",
       .raiseErr "Server error"]
    else
      [.display "An unexpected error occurred",
       .raiseErr "Unknown error occurred"]
  | none =>
    [.display "An unexpected error occurred",
     .raiseErr "Unknown error occurred"]

/-- The spec's error categories. -/
inductive ErrorCategory where
  | authentication
  | permission
  | notFound
  | rateLimit
  | serverError
  | unknown
deriving DecidableEq, Repr

/-- Modelled from the spec: the classification table, keyed by the first
matching substring of the raw message in priority order 401, 403, 404,
429, 500; any other input (including a non-Error) is `unknown`. -/
def classifySpec (e : Option String) : ErrorCategory :=
  match e with
  | none => .unknown
  | some m =>
    if strContains m "401" then .authentication
    else if strContains m "403" then .permission
    else if strContains m "404" then .notFound
    else if strContains m "429" then .rateLimit
    else if strContains m "500" then .serverError
    else .unknown

/-- The fixed operator-facing (toast) message of each category. -/
def categoryToast : ErrorCategory → String
  | .authentication => "Authentication failed. Please check your API credentials."
  | .permission => "You do not have permission to perform this action."
  | .notFound => "The requested resource was not found."
  | .rateLimit => "Too many requests. Please try again later."
  | .serverError => "Server error. Please try again later."
  | .unknown => "An unexpected error occurred"

/-- The message of the freshly raised error for each category. -/
def categoryRaised : ErrorCategory → String
  | .authentication => "Authentication failed"
  | .permission => "Permission denied"
  | .notFound => "Resource not found"
  | .rateLimit => "Rate limit exceeded"
  | .serverError => "Server error"
  | .unknown => "Unknown error occurred"

/-- Modelled from the spec: the claimed derivation rule for the response
text — probe `result`, `responseText`, `response`, `message` in order, the
first PRESENT value winning, with the fixed fallback when none is present. -/
def specFirstPresent (d : JsonBody) : String :=
  match d.result with
  | some s => s
  | none =>
    match d.responseText with
    | some s => s
    | none =>
      match d.response with
      | some s => s
      | none =>
        match d.message with
        | some s => s
        | none => "No response received"

/-- The amended derivation rule: probe the four fields in order, the first
TRUTHY (present and non-empty) value winning, with the fixed fallback when
none is truthy. -/
def specFirstTruthy (d : JsonBody) : String :=
  if truthy d.result then d.result.getD ""
  else if truthy d.responseText then d.responseText.getD ""
  else if truthy d.response then d.response.getD ""
  else if truthy d.message then d.message.getD ""
  else "No response received"

/-! ## Concrete fixtures for witnesses and counterexamples -/

/-- A fixed call descriptor used by the concrete scenarios below. -/
def exampleConfig : ApiConfig :=
  { method := "POST", url := "https://example.test/run",
    content_type := "application/json" }

/-- Valid credentials, a `workflow` variable present, `workflowId` set. -/
def paramsWorkflowVar : TestApiParams :=
  { workerId := "w", apiAuthToken := "t", apiConfig := exampleConfig,
    vars := [("workflow", "x")], workflowId := some "w1" }

/-- Valid credentials, no `workflow` variable, `workflowId` set. -/
def paramsNoVar : TestApiParams :=
  { workerId := "w", apiAuthToken := "t", apiConfig := exampleConfig,
    vars := [], workflowId := some "w1" }

/-- Valid credentials, no `workflow` variable, `workflowId` absent. -/
def paramsNoWid : TestApiParams :=
  { workerId := "w", apiAuthToken := "t", apiConfig := exampleConfig,
    vars := [], workflowId := none }

/-- An empty `workerId`, triggering the first precondition failure. -/
def paramsBadWorker : TestApiParams :=
  { workerId := "", apiAuthToken := "t", apiConfig := exampleConfig,
    vars := [], workflowId := some "w1" }

/-- The failure-path contract: the outcome re-raises the original error
unchanged, exactly one `logError` call is made with context
`{workerId, url, method}` and the error, and a catch-block audit row
(level "error", message from the error or the fixed fallback, details
`{error, stack}`) is inserted exactly when `workflowId` is set and the
variables map contains a `workflow` key. -/
def catchSpec (p : TestApiParams) (e : Thrown)
    (out : List Event × Except Thrown TestApiSuccess) : Prop :=
  out.2 = .error e ∧
  logCalls out.1 = [(⟨p.workerId, p.apiConfig.url, p.apiConfig.method⟩, e)] ∧
  catchInserts out.1 =
    (match p.workflowId with
     | some wid =>
       if (p.vars.lookup "workflow").isSome then
         [{ workflow_id := wid
            level := "error"
            message := (e.errMessage).getD "Failed to connect to MindStudio API"
            details := .errorStack ((e.errMessage).getD "Unknown error") e.errStack }]
       else []
     | none => [])

/-! ## Helper lemmas -/

lemma prefixOf_append_self (l m : List Char) : l.isPrefixOf (l ++ m) = true := by
  induction l with
  | nil => simp [List.isPrefixOf]
  | cons c t ih => simp [List.isPrefixOf, ih]

lemma startsWith_bearer_append (t : String) :
    strStartsWith ("Bearer " ++ t) "Bearer " = true := by
  have h : ("Bearer " ++ t).toList = "Bearer ".toList ++ t.toList := by
    simp [String.toList]
  unfold strStartsWith
  rw [h]
  exact prefixOf_append_self _ _

lemma testApi_netErr_eq (p : TestApiParams) (e : Thrown)
    (hw : ¬(p.workerId = "" ∨ p.workerId = "your-worker-id"))
    (ht : ¬(p.apiAuthToken = "" ∨ p.apiAuthToken = "your-auth-token")) :
    testApi p (.netErr e) =
      (preClearEvents p ++ [Event.netFetch (mkRequest p)] ++ catchEvents p e,
       .error e) := by
  simp [testApi, hw, ht]

lemma testApi_parseErr_eq (p : TestApiParams) (status : Nat) (stext : String)
    (e : Thrown)
    (hw : ¬(p.workerId = "" ∨ p.workerId = "your-worker-id"))
    (ht : ¬(p.apiAuthToken = "" ∨ p.apiAuthToken = "your-auth-token")) :
    testApi p (.gotResponse status stext (.error e)) =
      (preClearEvents p ++ [Event.netFetch (mkRequest p)] ++ catchEvents p e,
       .error e) := by
  simp [testApi, hw, ht]

lemma testApi_ok_eq (p : TestApiParams) (status : Nat) (stext : String)
    (data : JsonBody)
    (hw : ¬(p.workerId = "" ∨ p.workerId = "your-worker-id"))
    (ht : ¬(p.apiAuthToken = "" ∨ p.apiAuthToken = "your-auth-token"))
    (hok : respOk status = true) :
    testApi p (.gotResponse status stext (.ok data)) =
      (preClearEvents p ++ [Event.netFetch (mkRequest p)] ++
        step5Events p status stext data,
       .ok { success := true, response := derivedResponse data }) := by
  simp [testApi, hw, ht, hok]

lemma testApi_non2xx_eq (p : TestApiParams) (status : Nat) (stext : String)
    (data : JsonBody)
    (hw : ¬(p.workerId = "" ∨ p.workerId = "your-worker-id"))
    (ht : ¬(p.apiAuthToken = "" ∨ p.apiAuthToken = "your-auth-token"))
    (hok : respOk status = false) :
    testApi p (.gotResponse status stext (.ok data)) =
      ((preClearEvents p ++ [Event.netFetch (mkRequest p)] ++
          step5Events p status stext data) ++
        catchEvents p
          (.apiErr ((jsOr data.message
            (some ("API request failed: " ++ stext))).getD "") none),
       .error (.apiErr ((jsOr data.message
          (some ("API request failed: " ++ stext))).getD "") none)) := by
  simp [testApi, hw, ht, hok]

lemma validCreds_not_bad (p : TestApiParams) (hv : validCreds p) :
    ¬(p.workerId = "" ∨ p.workerId = "your-worker-id") ∧
    ¬(p.apiAuthToken = "" ∨ p.apiAuthToken = "your-auth-token") := by
  obtain ⟨v1, v2, v3, v4⟩ := hv
  exact ⟨by tauto, by tauto⟩

lemma step5Rows_append (a b : List Event) :
    step5Rows (a ++ b) = step5Rows a ++ step5Rows b :=
  List.filterMap_append ..

lemma catchInserts_append (a b : List Event) :
    catchInserts (a ++ b) = catchInserts a ++ catchInserts b :=
  List.filterMap_append ..

lemma errorInserts_append (a b : List Event) :
    errorInserts (a ++ b) = errorInserts a ++ errorInserts b :=
  List.filterMap_append ..

lemma logCalls_append (a b : List Event) :
    logCalls (a ++ b) = logCalls a ++ logCalls b :=
  List.filterMap_append ..

lemma step5Rows_preClear (p : TestApiParams) :
    step5Rows (preClearEvents p) = [] := by
  cases h : p.workflowId <;> simp [preClearEvents, h, step5Rows]

lemma step5Rows_catchEvents (p : TestApiParams) (e : Thrown) :
    step5Rows (catchEvents p e) = [] := by
  cases h : p.workflowId with
  | none => simp [catchEvents, h, step5Rows]
  | some wid =>
    cases hx : (p.vars.lookup "workflow").isSome <;>
      simp [catchEvents, h, hx, step5Rows]

lemma step5Rows_step5Events (p : TestApiParams) (wid : String) (status : Nat)
    (stext : String) (data : JsonBody) (h : p.workflowId = some wid) :
    step5Rows (step5Events p status stext data) =
      (if respOk status && (p.vars.lookup "workflow").isSome then []
       else [{ workflow_id := wid
               level := if respOk status then "info" else "error"
               message := if respOk status then "API request successful"
                          else "API request failed: " ++ stext
               details := .statusResponse status data }]) := by
  by_cases h1 : respOk status = true <;>
    cases hx : p.vars.lookup "workflow" <;>
      simp [step5Events, step5Rows, h, h1, hx]

lemma step5Rows_none (p : TestApiParams) (world : FetchResult)
    (h : p.workflowId = none) :
    step5Rows (testApi p world).1 = [] := by
  by_cases hw : p.workerId = "" ∨ p.workerId = "your-worker-id"
  · simp [testApi, hw, step5Rows]
  · by_cases ht : p.apiAuthToken = "" ∨ p.apiAuthToken = "your-auth-token"
    · simp [testApi, hw, ht, step5Rows]
    · cases world with
      | netErr e =>
        simp [testApi, hw, ht, preClearEvents, catchEvents, h, step5Rows]
      | gotResponse st sx parsed =>
        cases parsed with
        | error e =>
          simp [testApi, hw, ht, preClearEvents, catchEvents, h, step5Rows]
        | ok data =>
          by_cases hok : respOk st = true <;>
            simp [testApi, hw, ht, preClearEvents, step5Events, catchEvents,
              h, step5Rows, hok]

/-! ## Theorems for the Error Classifier -/

/-- C8: the Error Classifier maps an error to a category by substring
checks on the raw message in the priority order 401, 403, 404, 429, 500,
first match winning and any other input giving Unknown, and each category
produces its fixed operator-facing message; in particular a message
containing "401" produces the Authentication toast. -/
theorem classifier_matches_spec_table :
    (∀ e : Option String, handleApiError e =
      [ClassifierEvent.display (categoryToast (classifySpec e)),
       ClassifierEvent.raiseErr (categoryRaised (classifySpec e))]) ∧
    handleApiError (some "Request failed with status code 401") =
      [ClassifierEvent.display
        "Authentication failed. Please check your API credentials.",
       ClassifierEvent.raiseErr "Authentication failed"] := by
  constructor
  · intro e
    cases e with
    | none => rfl
    | some m =>
      unfold handleApiError classifySpec
      by_cases h1 : strContains m "401" = true
      · simp [h1, categoryToast, categoryRaised]
      · by_cases h2 : strContains m "403" = true
        · simp [h1, h2, categoryToast, categoryRaised]
        · by_cases h3 : strContains m "404" = true
          · simp [h1, h2, h3, categoryToast, categoryRaised]
          · by_cases h4 : strContains m "429" = true
            · simp [h1, h2, h3, h4, categoryToast, categoryRaised]
            · by_cases h5 : strContains m "500" = true
              · simp [h1, h2, h3, h4, h5, categoryToast, categoryRaised]
              · simp [h1, h2, h3, h4, h5, categoryToast, categoryRaised]
  · decide

/-- C10: the Error Classifier never returns normally: for every input it
performs the toast display and then raises a fresh error whose message is
one of the six fixed category strings, discarding the original error; a
non-Error input raises "Unknown error occurred". -/
theorem classifier_always_displays_then_raises :
    (∀ e : Option String, ∃ t r,
      handleApiError e = [ClassifierEvent.display t, ClassifierEvent.raiseErr r] ∧
      r ∈ ["Authentication failed", "Permission denied", "Resource not found",
           "Rate limit exceeded", "Server error", "Unknown error occurred"]) ∧
    handleApiError none =
      [ClassifierEvent.display "An unexpected error occurred",
       ClassifierEvent.raiseErr "Unknown error occurred"] := by
  refine ⟨?_, rfl⟩
  intro e
  cases e with
  | none => exact ⟨_, _, rfl, by simp⟩
  | some m =>
    unfold handleApiError
    repeat' split
    all_goals exact ⟨_, _, rfl, by simp⟩

/-! ## Theorems for the Authorization header -/

/-- C7: the Authorization header value is the token unchanged when it
already starts with "Bearer ", and "Bearer " prepended otherwise; the
prefixing function is idempotent, and the two concrete examples hold. -/
theorem authHeader_idempotent :
    (∀ t, authHeader (authHeader t) = authHeader t) ∧
    authHeader "abc" = "Bearer abc" ∧
    authHeader "Bearer abc" = "Bearer abc" := by
  refine ⟨?_, by decide, by decide⟩
  intro t
  by_cases h : strStartsWith t "Bearer " = true
  · have e1 : authHeader t = t := by simp [authHeader, h]
    rw [e1, e1]
  · have e1 : authHeader t = "Bearer " ++ t := by simp [authHeader, h]
    rw [e1]
    simp [authHeader, startsWith_bearer_append]

/-! ## Theorems for the response-text derivation -/

/-- C3 counterexample: with body `{result: "", responseText: "ok2"}` the
field `result` is present, so the claimed first-present rule yields `""`,
but the code's truthiness-based chain skips the empty string and yields
`"ok2"`. -/
theorem derivedResponse_first_present_counterexample :
    derivedResponse { result := some "", responseText := some "ok2" } = "ok2" ∧
    specFirstPresent { result := some "", responseText := some "ok2" } = "" ∧
    derivedResponse { result := some "", responseText := some "ok2" } ≠
      specFirstPresent { result := some "", responseText := some "ok2" } := by
  refine ⟨by decide, by decide, by decide⟩

/-- C3 amended: the response text is derived by probing `result`,
`responseText`, `response`, `message` in order with the first TRUTHY
(present and non-empty) value winning and the fixed fallback
"No response received" otherwise; the three concrete examples hold. -/
theorem derivedResponse_first_truthy :
    (∀ d : JsonBody, derivedResponse d = specFirstTruthy d) ∧
    derivedResponse { result := some "ok" } = "ok" ∧
    derivedResponse { responseText := some "ok2" } = "ok2" ∧
    derivedResponse {} = "No response received" := by
  refine ⟨?_, by decide, by decide, by decide⟩
  intro d
  by_cases h1 : truthy d.result <;> by_cases h2 : truthy d.responseText <;>
    by_cases h3 : truthy d.response <;> by_cases h4 : truthy d.message <;>
    simp [derivedResponse, probeChain, jsOr, specFirstTruthy, h1, h2, h3, h4]

/-! ## Theorems for the precondition checks -/

/-- C4: with an empty or placeholder `workerId` or `authToken`, `testApi`
produces no events at all (no network call, no store delete, no store
insert) and synchronously raises a precondition `ApiError`. -/
theorem precondition_failure_no_effects :
    ∀ (p : TestApiParams) (world : FetchResult),
      (p.workerId = "" ∨ p.workerId = "your-worker-id" ∨
       p.apiAuthToken = "" ∨ p.apiAuthToken = "your-auth-token") →
      (testApi p world).1 = [] ∧
      ((testApi p world).2 =
         .error (.apiErr "Worker ID is not configured" none) ∨
       (testApi p world).2 =
         .error (.apiErr "API authentication token is not configured" none)) := by
  intro p world h
  by_cases hw : p.workerId = "" ∨ p.workerId = "your-worker-id"
  · simp [testApi, hw]
  · have ht : p.apiAuthToken = "" ∨ p.apiAuthToken = "your-auth-token" := by
      tauto
    simp [testApi, hw, ht]

/-- C4 witness: the empty-workerId fixture produces no events and raises
the precondition error, for an arbitrary world. -/
theorem precondition_failure_no_effects_witness :
    (testApi paramsBadWorker (.netErr .nonErr)).1 = [] ∧
    ((testApi paramsBadWorker (.netErr .nonErr)).2 =
       .error (.apiErr "Worker ID is not configured" none) ∨
     (testApi paramsBadWorker (.netErr .nonErr)).2 =
       .error (.apiErr "API authentication token is not configured" none)) :=
  precondition_failure_no_effects paramsBadWorker (.netErr .nonErr) (Or.inl rfl)

/-! ## Theorems for the frame property without a workflowId -/

/-- C9: when `workflowId` is absent, no Record Store access happens at all,
on every path (success, network failure, parse failure, non-2xx). -/
theorem no_store_access_without_workflowId :
    ∀ (p : TestApiParams) (world : FetchResult),
      p.workflowId = none →
      ((testApi p world).1.filter isStoreOp) = [] := by
  intro p world h
  by_cases hw : p.workerId = "" ∨ p.workerId = "your-worker-id"
  · simp [testApi, hw]
  · by_cases ht : p.apiAuthToken = "" ∨ p.apiAuthToken = "your-auth-token"
    · simp [testApi, hw, ht]
    · cases world with
      | netErr e =>
        simp [testApi, hw, ht, preClearEvents, catchEvents, h, isStoreOp]
      | gotResponse st sx parsed =>
        cases parsed with
        | error e =>
          simp [testApi, hw, ht, preClearEvents, catchEvents, h, isStoreOp]
        | ok data =>
          by_cases hok : respOk st = true <;>
            simp [testApi, hw, ht, preClearEvents, step5Events, catchEvents,
              h, isStoreOp, hok]

/-- C9 witness: the fixture without a `workflowId` performs no store access
on a successful 2xx exchange. -/
theorem no_store_access_without_workflowId_witness :
    ((testApi paramsNoWid (.gotResponse 200 "OK" (.ok {}))).1.filter isStoreOp) = [] :=
  no_store_access_without_workflowId paramsNoWid (.gotResponse 200 "OK" (.ok {})) rfl

lemma errorInserts_preClear (p : TestApiParams) :
    errorInserts (preClearEvents p) = [] := by
  cases h : p.workflowId <;> simp [preClearEvents, h, errorInserts]

lemma errorInserts_step5_non2xx (p : TestApiParams) (wid : String)
    (status : Nat) (stext : String) (data : JsonBody)
    (h : p.workflowId = some wid) (hok : respOk status = false) :
    errorInserts (step5Events p status stext data) =
      [{ workflow_id := wid
         level := "error"
         message := "API request failed: " ++ stext
         details := .statusResponse status data }] := by
  cases hx : p.vars.lookup "workflow" <;>
    simp [step5Events, errorInserts, h, hok, hx]

lemma errorInserts_catchEvents (p : TestApiParams) (e : Thrown) :
    errorInserts (catchEvents p e) =
      (match p.workflowId with
       | some wid =>
         if (p.vars.lookup "workflow").isSome then
           [{ workflow_id := wid
              level := "error"
              message := (e.errMessage).getD "Failed to connect to MindStudio API"
              details := .errorStack ((e.errMessage).getD "Unknown error") e.errStack }]
         else []
       | none => []) := by
  cases h : p.workflowId with
  | none => simp [catchEvents, h, errorInserts]
  | some wid =>
    cases hx : (p.vars.lookup "workflow").isSome <;>
      simp [catchEvents, h, hx, errorInserts]

lemma logCalls_preClear (p : TestApiParams) :
    logCalls (preClearEvents p) = [] := by
  cases h : p.workflowId <;> simp [preClearEvents, h, logCalls]

lemma logCalls_step5 (p : TestApiParams) (status : Nat) (stext : String)
    (data : JsonBody) :
    logCalls (step5Events p status stext data) = [] := by
  cases h : p.workflowId with
  | none => simp [step5Events, h, logCalls]
  | some wid =>
    by_cases hc : (!respOk status || (p.vars.lookup "workflow").isNone) = true <;>
      simp [step5Events, h, hc, logCalls]

lemma logCalls_catchEvents (p : TestApiParams) (e : Thrown) :
    logCalls (catchEvents p e) =
      [(⟨p.workerId, p.apiConfig.url, p.apiConfig.method⟩, e)] := by
  cases h : p.workflowId with
  | none => simp [catchEvents, h, logCalls]
  | some wid =>
    cases hx : (p.vars.lookup "workflow").isSome <;>
      simp [catchEvents, h, hx, logCalls]

lemma catchInserts_preClear (p : TestApiParams) :
    catchInserts (preClearEvents p) = [] := by
  cases h : p.workflowId <;> simp [preClearEvents, h, catchInserts]

lemma catchInserts_step5 (p : TestApiParams) (status : Nat) (stext : String)
    (data : JsonBody) :
    catchInserts (step5Events p status stext data) = [] := by
  cases h : p.workflowId with
  | none => simp [step5Events, h, catchInserts]
  | some wid =>
    by_cases hc : (!respOk status || (p.vars.lookup "workflow").isNone) = true <;>
      simp [step5Events, h, hc, catchInserts]

lemma catchInserts_catchEvents (p : TestApiParams) (e : Thrown) :
    catchInserts (catchEvents p e) =
      (match p.workflowId with
       | some wid =>
         if (p.vars.lookup "workflow").isSome then
           [{ workflow_id := wid
              level := "error"
              message := (e.errMessage).getD "Failed to connect to MindStudio API"
              details := .errorStack ((e.errMessage).getD "Unknown error") e.errStack }]
         else []
       | none => []) := by
  cases h : p.workflowId with
  | none => simp [catchEvents, h, catchInserts]
  | some wid =>
    cases hx : (p.vars.lookup "workflow").isSome <;>
      simp [catchEvents, h, hx, catchInserts]

/-! ## Theorems for the step-5 audit write -/

/-- C1: with `workflowId` set and a decoded response, the step-5 audit
entry is written iff the status is not 2xx or the variables map lacks the
`workflow` key, with level "info"/"error", the fixed success message or
"API request failed: " plus the status text, and details
`{status, response}`; with `workflowId` absent no step-5 entry is ever
written on any path. -/
theorem step5_audit_write_iff :
    (∀ (p : TestApiParams) (wid : String) (status : Nat) (stext : String)
       (data : JsonBody),
      p.workflowId = some wid → validCreds p →
      step5Rows (testApi p (.gotResponse status stext (.ok data))).1 =
        (if respOk status && (p.vars.lookup "workflow").isSome then []
         else [{ workflow_id := wid
                 level := if respOk status then "info" else "error"
                 message := if respOk status then "API request successful"
                            else "API request failed: " ++ stext
                 details := .statusResponse status data }])) ∧
    (∀ (p : TestApiParams) (world : FetchResult),
      p.workflowId = none → step5Rows (testApi p world).1 = []) := by
  constructor
  · intro p wid status stext data hwid hv
    obtain ⟨hw, ht⟩ := validCreds_not_bad p hv
    by_cases hok : respOk status = true
    · rw [testApi_ok_eq p status stext data hw ht hok]
      simp only [step5Rows_append, step5Rows_preClear,
        step5Rows_step5Events p wid status stext data hwid]
      simp [step5Rows]
    · rw [testApi_non2xx_eq p status stext data hw ht
        (by simpa using hok)]
      simp only [step5Rows_append, step5Rows_preClear, step5Rows_catchEvents,
        step5Rows_step5Events p wid status stext data hwid]
      simp [step5Rows]
  · intro p world h
    exact step5Rows_none p world h

/-- C1 witness: a concrete 2xx exchange with no `workflow` variable writes
exactly the info success row. -/
theorem step5_audit_write_iff_witness :
    step5Rows (testApi paramsNoVar (.gotResponse 200 "OK" (.ok {}))).1 =
      (if respOk 200 && ((paramsNoVar.vars.lookup "workflow").isSome) then []
       else [{ workflow_id := "w1"
               level := if respOk 200 then "info" else "error"
               message := if respOk 200 then "API request successful"
                          else "API request failed: " ++ "OK"
               details := .statusResponse 200 {} }]) :=
  step5_audit_write_iff.1 paramsNoVar "w1" 200 "OK" {} rfl (by decide)

/-! ## Theorems for the non-2xx path -/

/-- C2 counterexample: with `workflowId` set and a `workflow` variable
present, a 500 response writes TWO audit rows at level "error" (the step-5
insert and the catch-block insert), not exactly one; and the raised error
carries no status (its optional status field is `none`), not the response
status. -/
theorem non2xx_single_error_row_counterexample :
    (errorInserts (testApi paramsWorkflowVar
      (.gotResponse 500 "Internal Server Error" (.ok {}))).1).length = 2 ∧
    (testApi paramsWorkflowVar
      (.gotResponse 500 "Internal Server Error" (.ok {}))).2 =
      .error (.apiErr "API request failed: Internal Server Error" none) := by
  exact ⟨by decide, rfl⟩

/-- C2 amended: with `workflowId` set and a non-2xx response, at least one
audit row at level "error" is written — exactly one when the variables map
lacks a `workflow` key and two when it contains one — and `invoke` raises
an `ApiError` whose message is the decoded body's `message` field if
truthy, else "API request failed: " plus the status text, and which
carries no response status. -/
theorem non2xx_error_rows_and_raise :
    ∀ (p : TestApiParams) (wid : String) (status : Nat) (stext : String)
      (data : JsonBody),
      p.workflowId = some wid → validCreds p → respOk status = false →
      (errorInserts (testApi p (.gotResponse status stext (.ok data))).1).length =
        (if (p.vars.lookup "workflow").isSome then 2 else 1) ∧
      (testApi p (.gotResponse status stext (.ok data))).2 =
        .error (.apiErr ((jsOr data.message
          (some ("API request failed: " ++ stext))).getD "") none) := by
  intro p wid status stext data hwid hv hok
  obtain ⟨hw, ht⟩ := validCreds_not_bad p hv
  rw [testApi_non2xx_eq p status stext data hw ht hok]
  refine ⟨?_, rfl⟩
  simp only [errorInserts_append,
    errorInserts_step5_non2xx p wid status stext data hwid hok,
    errorInserts_catchEvents, errorInserts_preClear, hwid]
  cases hx : (p.vars.lookup "workflow").isSome <;>
    simp [errorInserts, hx]

/-- C2 amended witness: a concrete 500 response with no `workflow`
variable writes exactly one error row and raises the fallback-message
error with no status. -/
theorem non2xx_error_rows_and_raise_witness :
    (errorInserts (testApi paramsNoVar
      (.gotResponse 500 "Internal Server Error" (.ok {}))).1).length =
      (if ((paramsNoVar.vars.lookup "workflow").isSome) then 2 else 1) ∧
    (testApi paramsNoVar (.gotResponse 500 "Internal Server Error" (.ok {}))).2 =
      .error (.apiErr ((jsOr (JsonBody.message {})
        (some ("API request failed: " ++ "Internal Server Error"))).getD "") none) :=
  non2xx_error_rows_and_raise paramsNoVar "w1" 500 "Internal Server Error" {}
    rfl (by decide) (by decide)

/-! ## Theorems for the failure path -/

/-- C5 counterexample: for a thrown non-Error value, the catch-block audit
row's fallback message is "Failed to connect to MindStudio API", not the
claimed "Failed to connect to the remote worker API". -/
theorem failure_fallback_message_counterexample :
    (catchInserts (testApi paramsWorkflowVar (.netErr .nonErr)).1).map
        AuditRow.message = ["Failed to connect to MindStudio API"] ∧
    "Failed to connect to MindStudio API" ≠
      "Failed to connect to the remote worker API" := by
  exact ⟨by decide, by decide⟩

/-- C5 amended: on every failure (network exception, JSON parse failure at
any status — 2xx included — or the raised non-2xx error) the pipeline
makes exactly one `logError` call with context `{workerId, url, method}`
and the error; writes a catch-block audit row at level "error" — message
the error's message or the fallback "Failed to connect to MindStudio API",
details `{error, stack}` — exactly when `workflowId` is set and the
variables map contains a `workflow` key; and re-raises the original error
unchanged. -/
theorem failure_logging_and_reraise :
    ∀ (p : TestApiParams) (e : Thrown) (pstatus nstatus : Nat)
      (pstext nstext : String) (data : JsonBody),
      validCreds p → respOk nstatus = false →
      catchSpec p e (testApi p (.netErr e)) ∧
      catchSpec p e (testApi p (.gotResponse pstatus pstext (.error e))) ∧
      catchSpec p
        (.apiErr ((jsOr data.message
          (some ("API request failed: " ++ nstext))).getD "") none)
        (testApi p (.gotResponse nstatus nstext (.ok data))) := by
  intro p e pstatus nstatus pstext nstext data hv hok
  obtain ⟨hw, ht⟩ := validCreds_not_bad p hv
  refine ⟨?_, ?_, ?_⟩
  · rw [catchSpec, testApi_netErr_eq p e hw ht]
    refine ⟨rfl, ?_, ?_⟩
    · simp only [logCalls_append, logCalls_preClear, logCalls_catchEvents]
      simp [logCalls]
    · simp only [catchInserts_append, catchInserts_preClear,
        catchInserts_catchEvents]
      simp [catchInserts]
  · rw [catchSpec, testApi_parseErr_eq p pstatus pstext e hw ht]
    refine ⟨rfl, ?_, ?_⟩
    · simp only [logCalls_append, logCalls_preClear, logCalls_catchEvents]
      simp [logCalls]
    · simp only [catchInserts_append, catchInserts_preClear,
        catchInserts_catchEvents]
      simp [catchInserts]
  · rw [catchSpec, testApi_non2xx_eq p nstatus nstext data hw ht hok]
    refine ⟨rfl, ?_, ?_⟩
    · simp only [logCalls_append, logCalls_preClear, logCalls_catchEvents,
        logCalls_step5]
      simp [logCalls]
    · simp only [catchInserts_append, catchInserts_preClear,
        catchInserts_catchEvents, catchInserts_step5]
      simp [catchInserts]

/-- C5 amended witness: the concrete fixture with a `workflow` variable,
run against a network failure, a JSON parse failure on a 200 response,
and a 500 response. -/
theorem failure_logging_and_reraise_witness :
    catchSpec paramsWorkflowVar (.stdErr "boom" (some "trace"))
      (testApi paramsWorkflowVar (.netErr (.stdErr "boom" (some "trace")))) ∧
    catchSpec paramsWorkflowVar (.stdErr "boom" (some "trace"))
      (testApi paramsWorkflowVar
        (.gotResponse 200 "OK" (.error (.stdErr "boom" (some "trace"))))) ∧
    catchSpec paramsWorkflowVar
      (.apiErr ((jsOr (JsonBody.message {})
        (some ("API request failed: " ++ "Internal Server Error"))).getD "") none)
      (testApi paramsWorkflowVar
        (.gotResponse 500 "Internal Server Error" (.ok {}))) :=
  failure_logging_and_reraise paramsWorkflowVar (.stdErr "boom" (some "trace"))
    200 500 "OK" "Internal Server Error" {} (by decide) (by decide)

/-! ## Theorems for the pre-clear invariant -/

/-- C6: two sequential successful 2xx invocations with the same
`workflowId` and no `workflow` variable leave at most one
"API request successful" row for that workflow, from any starting store:
the second call's pre-clear deletes every prior success marker before its
own insert. -/
theorem at_most_one_success_row :
    ∀ (s : List AuditRow) (p1 p2 : TestApiParams) (wid : String)
      (st1 st2 : Nat) (sx1 sx2 : String) (d1 d2 : JsonBody),
      validCreds p1 → validCreds p2 →
      p1.workflowId = some wid → p2.workflowId = some wid →
      respOk st1 = true → respOk st2 = true →
      p1.vars.lookup "workflow" = none → p2.vars.lookup "workflow" = none →
      successCount wid
        (applyEvents
          (applyEvents s (testApi p1 (.gotResponse st1 sx1 (.ok d1))).1)
          (testApi p2 (.gotResponse st2 sx2 (.ok d2))).1) ≤ 1 := by
  intro s p1 p2 wid st1 st2 sx1 sx2 d1 d2 hv1 hv2 hwid1 hwid2 hok1 hok2 hlk1 hlk2
  obtain ⟨hw2, ht2⟩ := validCreds_not_bad p2 hv2
  rw [testApi_ok_eq p2 st2 sx2 d2 hw2 ht2 hok2]
  have hevs : preClearEvents p2 ++ [Event.netFetch (mkRequest p2)] ++
      step5Events p2 st2 sx2 d2 =
      [Event.storeDelete wid "API request successful",
       Event.netFetch (mkRequest p2),
       Event.storeInsert
         { workflow_id := wid
           level := "info"
           message := "API request successful"
           details := .statusResponse st2 d2 }] := by
    simp [preClearEvents, step5Events, hwid2, hok2, hlk2]
  rw [hevs]
  simp only [applyEvents, List.foldl, applyEvent]
  simp [successCount, List.filter_append, List.filter_filter]

/-- C6 witness: two concrete successful calls over the empty store leave
at most one success row. -/
theorem at_most_one_success_row_witness :
    successCount "w1"
      (applyEvents
        (applyEvents [] (testApi paramsNoVar (.gotResponse 200 "OK" (.ok {}))).1)
        (testApi paramsNoVar (.gotResponse 201 "Created" (.ok {}))).1) ≤ 1 :=
  at_most_one_success_row [] paramsNoVar paramsNoVar "w1" 200 201 "OK" "Created"
    {} {} (by decide) (by decide) rfl rfl (by decide) (by decide) rfl rfl

end Spec2Proof
